import Mathlib

/-!
# Verification of the osmotrum image worker (src/img-worker.js)

Shallow embedding of the worker's pure logic:

* the EXIF orientation reader `readJpegExifOrientation` (a binary TIFF/EXIF
  walk over raw bytes, modelled on `List ℕ` where each element is one byte;
  a `DataView` read past the end of the buffer throws in JavaScript and the
  whole reader is wrapped in `try … catch { return 1 }`, so out-of-range
  reads are modelled as `Option.none` and the catch maps `none` to `1`);
* the oriented-size computation and the orientation compositor
  (`orientedSize`, `drawBitmapWithOrientation`), with the canvas 2D
  transform state modelled as an affine map over `ℚ`;
* the size-constrained encoder `renderResizedJpeg` (two nested bounded
  loops over resize passes and quality iterations), with the opaque
  `canvas.convertToBlob` JPEG byte size modelled as an oracle
  `encode : ℕ → ℕ → ℚ → ℕ` of the canvas dimensions and quality — within
  one call the bitmap and orientation are fixed, so the produced byte size
  is a function of exactly these three arguments;
* the `onmessage` dispatcher as a transition function from worker state and
  message to new state and response.

JavaScript numbers are modelled as `ℚ` (every value the worker computes
with is finite: `isFiniteNumber` guards all configuration reads); loop
bounds (`maxQualityIters`, `maxResizePasses`) are modelled as `ℕ`.
-/

/-! ## Byte-level reads (DataView model) -/

/-- One byte read, `none` when out of range (a JS `RangeError`). -/
def getU8 (bytes : List ℕ) (o : ℕ) : Option ℕ :=
  bytes.get? o

/-- `DataView.getUint16(o, little)`. -/
def getU16 (little : Bool) (bytes : List ℕ) (o : ℕ) : Option ℕ :=
  match bytes.get? o, bytes.get? (o + 1) with
  | some a, some b => some (if little then b * 256 + a else a * 256 + b)
  | _, _ => none

/-- `DataView.getUint32(o, little)`. -/
def getU32 (little : Bool) (bytes : List ℕ) (o : ℕ) : Option ℕ :=
  match bytes.get? o, bytes.get? (o + 1), bytes.get? (o + 2), bytes.get? (o + 3) with
  | some a, some b, some c, some d =>
    some (if little then ((d * 256 + c) * 256 + b) * 256 + a
          else ((a * 256 + b) * 256 + c) * 256 + d)
  | _, _, _, _ => none

/-! ## EXIF orientation reader (src/img-worker.js lines 59-129) -/

/-- The IFD0 directory-entry scan (the `for (let i = 0; i < entries; i++)`
loop): `base` is the byte offset of entry 0, `i` the current index and the
last argument the number of remaining entries.  Falling off the loop end or
hitting a truncated entry returns `some 1` (the `return 1` after the loop /
the `break`); an out-of-range read returns `none` (a thrown `RangeError`). -/
def scanEntries (bytes : List ℕ) (little : Bool) (base : ℕ) : ℕ → ℕ → Option ℕ
  | _, 0 => some 1
  | i, rem + 1 =>
    let entry := base + i * 12
    if entry + 12 > bytes.length then some 1
    else
      match getU16 little bytes entry with
      | none => none
      | some tag =>
        if tag = 0x0112 then
          match getU16 little bytes (entry + 2), getU32 little bytes (entry + 4) with
          | some typ, some count =>
            if typ ≠ 3 ∨ count ≠ 1 then some 1
            else
              match getU16 little bytes (entry + 8) with
              | none => none
              | some value => if 1 ≤ value ∧ value ≤ 8 then some value else some 1
          | _, _ => none
        else scanEntries bytes little base (i + 1) rem

/-- The TIFF header walk inside a valid `Exif\0\0` APP1 segment:
byte-order mark, magic `0x002A`, IFD0 offset, then the entry scan. -/
def parseTiff (bytes : List ℕ) (tiffOffset : ℕ) : Option ℕ :=
  match getU16 false bytes tiffOffset with
  | none => none
  | some bom =>
    let little := bom = 0x4949
    match getU16 little bytes (tiffOffset + 2) with
    | none => none
    | some magic =>
      if magic ≠ 0x002A then some 1
      else
        match getU32 little bytes (tiffOffset + 4) with
        | none => none
        | some ifd0Rel =>
          let ifd0 := tiffOffset + ifd0Rel
          if ifd0 + 2 > bytes.length then some 1
          else
            match getU16 little bytes ifd0 with
            | none => none
            | some entries => scanEntries bytes little (ifd0 + 2) 0 entries

/-- The JPEG marker-segment walk (`while (offset + 4 < dv.byteLength)`).
Each continuing iteration advances `offset` by `4 + (size - 2) ≥ 4`, so
`bytes.length` units of fuel always suffice; running out of fuel yields
`none`, which the catch clause maps to `1` exactly as a thrown read would
be.  The two reads of the `Exif\0\0` signature mirror the short-circuit
`&&` of the source: the second read happens only when the first matched. -/
def markerLoop (bytes : List ℕ) : ℕ → ℕ → Option ℕ
  | _, 0 => none
  | offset, fuel + 1 =>
    if ¬ offset + 4 < bytes.length then some 1
    else
      match getU16 false bytes offset with
      | none => none
      | some marker =>
        if marker = 0xFFD9 ∨ marker = 0xFFDA then some 1
        else
          match getU16 false bytes (offset + 2) with
          | none => none
          | some size =>
            if size < 2 then some 1
            else if marker = 0xFFE1 then
              match getU32 false bytes (offset + 4) with
              | none => none
              | some sig =>
                if sig ≠ 0x45786966 then markerLoop bytes (offset + 4 + (size - 2)) fuel
                else
                  match getU16 false bytes (offset + 8) with
                  | none => none
                  | some pad =>
                    if pad ≠ 0 then markerLoop bytes (offset + 4 + (size - 2)) fuel
                    else parseTiff bytes (offset + 10)
            else markerLoop bytes (offset + 4 + (size - 2)) fuel

/-- The body of the `try` block: SOI check then the marker walk. -/
def parseOrientation (bytes : List ℕ) : Option ℕ :=
  match getU16 false bytes 0 with
  | none => none
  | some soi => if soi ≠ 0xFFD8 then some 1 else markerLoop bytes 2 bytes.length

/-- `readJpegExifOrientation` (src/img-worker.js line 59): the whole parse
runs inside `try … catch { return 1 }`; `none` is the thrown case. -/
def readJpegExifOrientation (bytes : List ℕ) : ℕ :=
  (parseOrientation bytes).getD 1

/-! ## Oriented size and the orientation compositor (lines 131-190) -/

/-- `orientedSize` (line 131): orientations 5..8 swap width/height. -/
def orientedSize (w h : ℕ) (orientation : ℕ) : ℕ × ℕ :=
  if 5 ≤ orientation ∧ orientation ≤ 8 then (h, w) else (w, h)

/-- The larger oriented dimension (`Math.max(oSize.w, oSize.h)`). -/
def orientedLongSide (w h orientation : ℕ) : ℕ :=
  max (orientedSize w h orientation).1 (orientedSize w h orientation).2

/-- A canvas 2D affine transform `[a b c d e f]`:
`x' = a*x + c*y + e`, `y' = b*x + d*y + f`. -/
structure Affine where
  a : ℚ
  b : ℚ
  c : ℚ
  d : ℚ
  e : ℚ
  f : ℚ
deriving Repr, DecidableEq

/-- Apply an affine transform to a point. -/
def Affine.apply (T : Affine) (p : ℚ × ℚ) : ℚ × ℚ :=
  (T.a * p.1 + T.c * p.2 + T.e, T.b * p.1 + T.d * p.2 + T.f)

/-- Composition: `(T.mul U).apply p = T.apply (U.apply p)`.  Canvas context
operations post-multiply the current transform, so `ctx.translate` after
`ctx.rotate` yields `rotate.mul translate`. -/
def Affine.mul (T U : Affine) : Affine :=
  ⟨T.a * U.a + T.c * U.b, T.b * U.a + T.d * U.b,
   T.a * U.c + T.c * U.d, T.b * U.c + T.d * U.d,
   T.a * U.e + T.c * U.f + T.e, T.b * U.e + T.d * U.f + T.f⟩

/-- The identity transform (fresh 2D context). -/
def Affine.id : Affine := ⟨1, 0, 0, 1, 0, 0⟩

/-- `ctx.translate(tx, ty)`. -/
def translateM (tx ty : ℚ) : Affine := ⟨1, 0, 0, 1, tx, ty⟩

/-- `ctx.scale(sx, sy)`. -/
def scaleM (sx sy : ℚ) : Affine := ⟨sx, 0, 0, sy, 0, 0⟩

/-- `ctx.rotate(Math.PI)`: cos = -1, sin = 0. -/
def rotPiM : Affine := ⟨-1, 0, 0, -1, 0, 0⟩

/-- `ctx.rotate(Math.PI / 2)`: cos = 0, sin = 1. -/
def rotHalfPiM : Affine := ⟨0, 1, -1, 0, 0, 0⟩

/-- `ctx.rotate(-Math.PI / 2)`: cos = 0, sin = -1. -/
def rotNegHalfPiM : Affine := ⟨0, -1, 1, 0, 0, 0⟩

/-- One call of the compositor: the surface (canvas) it paints, the white
background fill `fillRect(0, 0, outW, outH)`, the accumulated transform
at the `drawImage` call and the width/height arguments of `drawImage`. -/
structure DrawCall where
  surfaceW : ℕ
  surfaceH : ℕ
  transform : Affine
  drawW : ℕ
  drawH : ℕ
deriving Repr, DecidableEq

/-- `drawBitmapWithOrientation` (line 137).  Both call sites hand it the
context of a canvas constructed as `new OffscreenCanvas(outW, outH)`, so
the painted surface is `outW × outH`; the `switch (orientation)` selects
the transform ops and the `drawImage` size arguments, with the default
branch behaving as orientation 1. -/
def drawBitmapWithOrientation (orientation outW outH : ℕ) : DrawCall :=
  match orientation with
  | 2 => ⟨outW, outH, (translateM outW 0).mul (scaleM (-1) 1), outW, outH⟩
  | 3 => ⟨outW, outH, (translateM outW outH).mul rotPiM, outW, outH⟩
  | 4 => ⟨outW, outH, (translateM 0 outH).mul (scaleM 1 (-1)), outW, outH⟩
  | 5 => ⟨outW, outH, (rotNegHalfPiM.mul (scaleM (-1) 1)).mul (translateM (-(outH : ℚ)) 0),
          outH, outW⟩
  | 6 => ⟨outW, outH, rotHalfPiM.mul (translateM 0 (-(outW : ℚ))), outH, outW⟩
  | 7 => ⟨outW, outH, (rotHalfPiM.mul (scaleM (-1) 1)).mul (translateM (-(outH : ℚ)) (-(outW : ℚ))),
          outH, outW⟩
  | 8 => ⟨outW, outH, rotNegHalfPiM.mul (translateM (-(outH : ℚ)) 0), outH, outW⟩
  | _ => ⟨outW, outH, Affine.id, outW, outH⟩

/-! ## Size-constrained encoder (lines 254-332) -/

/-- A JS number `Math.round` for the values the worker rounds:
`Math.round(x) = ⌊x + 1/2⌋` (ties toward positive infinity). -/
def jround (x : ℚ) : ℤ := ⌊x + 1 / 2⌋

/-- `Math.max(1, Math.round(n * scale))` — an output dimension. -/
def jdim (n : ℕ) (scale : ℚ) : ℕ :=
  max 1 (jround ((n : ℚ) * scale)).toNat

/-- The worker's `RUNTIME` configuration object (lines 17-28). -/
structure Runtime where
  ready : Bool
  maxLongSidePx : ℚ
  targetMaxBytes : Option ℚ
  jpegQualityStart : ℚ
  jpegMinQuality : ℚ
  jpegQualityStep : ℚ
  maxQualityIters : ℕ
  maxResizePasses : ℕ
  resizeDownFactor : ℚ
deriving Repr

/-- The record returned by `renderResizedJpeg`: on the early-success path
the source object carries no `bestEffortOverLimit` property, and the
orchestrator reads it as `!!undefined = false`, modelled as `false`. -/
structure EncodeResult where
  size : ℕ
  width : ℕ
  height : ℕ
  quality : ℚ
  scale : ℚ
  pass : ℕ
  iter : ℕ
  bestEffortOverLimit : Bool
deriving Repr, DecidableEq

/-- The inner quality loop (lines 284-296).  `encode outW outH q` is the
byte size `canvas.convertToBlob({type: "image/jpeg", quality: q}).size`;
the fuel argument is `maxQualityIters - iter`, one unit per loop test, so
each recursion level performs exactly one encode.  `none` is the
fall-through without an accepted attempt (`best` still `null`). -/
def qualityLoop (encode : ℕ → ℕ → ℚ → ℕ) (target minQ step : ℚ)
    (outW outH : ℕ) (scl : ℚ) (pass : ℕ) : ℚ → ℕ → ℕ → Option EncodeResult
  | _, _, 0 => none
  | q, iter, fuel + 1 =>
    let size := encode outW outH q
    if (size : ℚ) ≤ target then
      some ⟨size, outW, outH, q, scl, pass, iter, false⟩
    else
      let nextQ := max minQ (q - step)
      if nextQ = q then none
      else qualityLoop encode target minQ step outW outH scl pass nextQ (iter + 1) fuel

/-- The final render after all passes are exhausted (lines 312-331):
one encode at the current scale and the minimum quality, flagged
`bestEffortOverLimit = (size > target)`. -/
def finalRender (rt : Runtime) (encode : ℕ → ℕ → ℚ → ℕ) (target : ℚ)
    (oW oH : ℕ) (scl : ℚ) : EncodeResult :=
  let outW := jdim oW scl
  let outH := jdim oH scl
  let size := encode outW outH rt.jpegMinQuality
  ⟨size, outW, outH, rt.jpegMinQuality, scl, rt.maxResizePasses, rt.maxQualityIters,
   decide (target < (size : ℚ))⟩

/-- The outer resize-pass loop (lines 270-310); fuel is
`maxResizePasses - pass`. -/
def resizeLoop (rt : Runtime) (encode : ℕ → ℕ → ℚ → ℕ) (target : ℚ)
    (oW oH : ℕ) : ℚ → ℕ → ℕ → EncodeResult
  | scl, _, 0 => finalRender rt encode target oW oH scl
  | scl, pass, fuel + 1 =>
    let outW := jdim oW scl
    let outH := jdim oH scl
    match qualityLoop encode target rt.jpegMinQuality rt.jpegQualityStep outW outH scl pass
        rt.jpegQualityStart 0 rt.maxQualityIters with
    | some best => best
    | none => resizeLoop rt encode target oW oH (scl * rt.resizeDownFactor) (pass + 1) fuel

/-- The initial scale (line 265):
`longSide > maxLongSidePx ? maxLongSidePx / longSide : 1`. -/
def initialScale (maxLong : ℚ) (longSide : ℕ) : ℚ :=
  if maxLong < (longSide : ℚ) then maxLong / (longSide : ℚ) else 1

/-- The scale the encoder uses on resize pass `k`
(`scale = scale * RUNTIME.resizeDownFactor` once per pass). -/
def scaleAtPass (maxLong rdf : ℚ) (longSide : ℕ) (k : ℕ) : ℚ :=
  initialScale maxLong longSide * rdf ^ k

/-- `renderResizedJpeg` (line 254) after its argument validation — the
bitmap enters only through its dimensions and, per call, the encoded byte
size is a function of the canvas dimensions and quality (oracle `encode`). -/
def renderResizedJpeg (rt : Runtime) (encode : ℕ → ℕ → ℚ → ℕ)
    (maxLong target : ℚ) (srcW srcH orientation : ℕ) : EncodeResult :=
  let o := orientedSize srcW srcH orientation
  resizeLoop rt encode target o.1 o.2
    (initialScale maxLong (orientedLongSide srcW srcH orientation)) 0 rt.maxResizePasses

/-- Number of `canvas.convertToBlob` calls the quality loop performs,
mirroring `qualityLoop` step for step. -/
def qualityLoopCalls (encode : ℕ → ℕ → ℚ → ℕ) (target minQ step : ℚ)
    (outW outH : ℕ) : ℚ → ℕ → ℕ
  | _, 0 => 0
  | q, fuel + 1 =>
    if ((encode outW outH q : ℕ) : ℚ) ≤ target then 1
    else
      let nextQ := max minQ (q - step)
      if nextQ = q then 1
      else 1 + qualityLoopCalls encode target minQ step outW outH nextQ fuel

/-- Number of `canvas.convertToBlob` calls the whole encoder performs,
mirroring `resizeLoop` (the fuel-0 case is the single final render). -/
def resizeLoopCalls (rt : Runtime) (encode : ℕ → ℕ → ℚ → ℕ) (target : ℚ)
    (oW oH : ℕ) : ℚ → ℕ → ℕ
  | _, 0 => 1
  | scl, fuel + 1 =>
    let outW := jdim oW scl
    let outH := jdim oH scl
    let qc := qualityLoopCalls encode target rt.jpegMinQuality rt.jpegQualityStep outW outH
        rt.jpegQualityStart rt.maxQualityIters
    match qualityLoop encode target rt.jpegMinQuality rt.jpegQualityStep outW outH scl 0
        rt.jpegQualityStart 0 rt.maxQualityIters with
    | some _ => qc
    | none => qc + resizeLoopCalls rt encode target oW oH (scl * rt.resizeDownFactor) fuel

/-- Total encode count of one `renderResizedJpeg` call. -/
def renderEncodeCalls (rt : Runtime) (encode : ℕ → ℕ → ℚ → ℕ)
    (maxLong target : ℚ) (srcW srcH orientation : ℕ) : ℕ :=
  let o := orientedSize srcW srcH orientation
  resizeLoopCalls rt encode target o.1 o.2
    (initialScale maxLong (orientedLongSide srcW srcH orientation)) rt.maxResizePasses

/-! ## Mime sniffing and decode strategies (lines 34-48, 192-252) -/

/-- `String.toLowerCase()` (character-wise, via the underlying char list). -/
def toLowerStr (s : String) : String := String.mk (s.data.map Char.toLower)

/-- `String.endsWith(suffix)` as a suffix check on the char list. -/
def endsWithStr (s suffix : String) : Bool := suffix.data.isSuffixOf s.data

/-- The file argument of a process request: declared type, name, byte
length and raw contents. -/
structure JsFile where
  type : String
  name : String
  size : ℕ
  bytes : List ℕ
deriving Repr

/-- `inferMime` (line 34): the declared type wins when non-empty,
otherwise the lower-cased name extension decides. -/
def inferMime (f : JsFile) : String :=
  if f.type ≠ "" then toLowerStr f.type
  else
    let name := toLowerStr f.name
    if endsWithStr name ".heic" then "image/heic"
    else if endsWithStr name ".heif" then "image/heif"
    else if endsWithStr name ".jpg" ∨ endsWithStr name ".jpeg" then "image/jpeg"
    else if endsWithStr name ".png" then "image/png"
    else if endsWithStr name ".webp" then "image/webp"
    else ""

/-- `isHeicLike` (line 46). -/
def isHeicLike (mime : String) : Bool :=
  mime = "image/heic" ∨ mime = "image/heif" ∨ mime = "image/heic-sequence" ∨
    mime = "image/heif-sequence"

/-- A decoded pixel surface (`ImageBitmap`): only its dimensions matter to
the pipeline. -/
structure Bitmap where
  width : ℕ
  height : ℕ
deriving Repr, DecidableEq

/-- The result of a decode strategy (bitmap, orientation tag,
provenance label). -/
structure Decoded where
  bitmap : Bitmap
  orientation : ℕ
  orientationMode : String
deriving Repr, DecidableEq

/-- Behaviour of the optional injected HEIC WASM decoder
(`RUNTIME.heicWasm.decodeToRGBA`): it may reject, return a null/invalid
payload, or return `{width, height, rgba, orientation?}`.  `hasRgba`
models presence of the `rgba` buffer; `orientation = 0` models an absent
orientation property (`decoded.orientation || 1`). -/
inductive WasmBehavior where
  | throws (msg : String)
  | payload (width height : ℕ) (hasRgba : Bool) (orientation : ℕ)
deriving Repr, DecidableEq

/-- Platform behaviour an individual request observes: availability and
outcome of the WebCodecs `ImageDecoder` path, the two `createImageBitmap`
paths, and the JPEG byte size produced by `canvas.convertToBlob` as a
function of canvas dimensions and quality. -/
structure DecodeEnv where
  hasImageDecoder : Bool
  webcodecsDecode : Option Bitmap
  createBitmapOriented : Option Bitmap
  createBitmapPlain : Except String Bitmap
  encode : ℕ → ℕ → ℚ → ℕ

/-- `bitmapFromNonHeic` (line 192): prefer
`createImageBitmap(file, {imageOrientation: "from-image"})`; on failure
fall back to a manual EXIF read (JPEG only) plus a plain
`createImageBitmap`, whose failure propagates as an exception. -/
def bitmapFromNonHeic (env : DecodeEnv) (f : JsFile) : Except String Decoded :=
  match env.createBitmapOriented with
  | some bm => .ok ⟨bm, 1, "native_from-image"⟩
  | none =>
    let mime := inferMime f
    let orientation := if mime = "image/jpeg" then readJpegExifOrientation f.bytes else 1
    match env.createBitmapPlain with
    | .ok bm => .ok ⟨bm, orientation, "manual_exif_or_unknown"⟩
    | .error e => .error e

/-- Extended worker state: `RUNTIME` plus the injected HEIC decoder
handle (`RUNTIME.heicWasm`, line 27). -/
structure WorkerState where
  rt : Runtime
  heicWasm : Option WasmBehavior

/-- `bitmapFromHeic` (line 207): WebCodecs `ImageDecoder` first (its
failure is swallowed), then the injected WASM decoder (validated payload;
a malformed payload throws), else the distinct unavailability error. -/
def bitmapFromHeic (s : WorkerState) (env : DecodeEnv) : Except String Decoded :=
  match (if env.hasImageDecoder then env.webcodecsDecode else none) with
  | some bm => .ok ⟨bm, 1, "webcodecs_imagedecoder"⟩
  | none =>
    match s.heicWasm with
    | none => .error "HEIC decode not available (no WebCodecs ImageDecoder and no WASM decoder provided)"
    | some (.throws m) => .error m
    | some (.payload w h hasRgba o) =>
      if w = 0 ∨ h = 0 ∨ hasRgba = false then
        .error "HEIC WASM decoder returned invalid payload"
      else .ok ⟨⟨w, h⟩, if o = 0 then 1 else o, "wasm_rgba"⟩

/-! ## The onmessage dispatcher (lines 334-470) -/

/-- JS truthiness of `RUNTIME.targetMaxBytes` (`null` and `0` are falsy). -/
def truthy : Option ℚ → Bool
  | none => false
  | some q => decide (q ≠ 0)

/-- An error payload as posted by `err(code, message, extra)`: the `extra`
object contributes the optional `type`, `requestId` and `detail` fields. -/
structure ErrPayload where
  code : String
  message : String
  type : Option String
  requestId : Option String
  detail : Option String
deriving Repr, DecidableEq

/-- The fields of a `process_ok` response and its debug trace that the
claims are about. -/
structure ProcessOkPayload where
  requestId : String
  originalMime : String
  originalBytes : ℕ
  normalizedBytes : ℕ
  normalizedW : ℕ
  normalizedH : ℕ
  debugOverLimit : Bool
  debugQuality : ℚ
  debugScale : ℚ
  debugPass : ℕ
  debugIter : ℕ
deriving Repr, DecidableEq

/-- The `init_ok` acknowledgment (lines 370-379). -/
structure InitOkPayload where
  maxLongSidePx : ℚ
  targetMaxBytes : Option ℚ
  hasHeicWasm : Bool
  hasWebCodecsImageDecoder : Bool
  warnings : List String
deriving Repr, DecidableEq

/-- A posted response. -/
inductive Response where
  | initOk (p : InitOkPayload)
  | processOk (p : ProcessOkPayload)
  | failure (e : ErrPayload)
deriving Repr, DecidableEq

/-- Line 385. -/
def notInitPayload : ErrPayload :=
  ⟨"E_NOT_INITIALIZED", "Worker is not initialized. Call init() first.",
   some "process_err", none, none⟩

/-- Lines 389-395. -/
def configMissingPayload : ErrPayload :=
  ⟨"E_CONFIG_TARGET_MAX_BYTES_MISSING",
   "В Config.DB нет constraints.images.target_max_bytes. Добавь этот параметр, иначе нельзя гарантировать размер JPEG.",
   some "process_err", none, none⟩

/-- Line 401. -/
def noFilePayload (rid : String) : ErrPayload :=
  ⟨"E_NO_FILE", "No file provided", some "process_err", some rid, none⟩

/-- Lines 414-418. -/
def heicFailedPayload (rid detail : String) : ErrPayload :=
  ⟨"E_HEIC_CONVERT_FAILED",
   "Не удалось конвертировать HEIC/HEIF офлайн. Выберите фото в JPEG/PNG.",
   some "process_err", some rid, some detail⟩

/-- Line 466. -/
def unknownPayload (t : String) : ErrPayload :=
  ⟨"E_UNKNOWN_MESSAGE", "Unknown message type: " ++ t, some "unknown_err", none, none⟩

/-- Line 468: the catch-all. -/
def workerExceptionPayload (detail : String) : ErrPayload :=
  ⟨"E_WORKER_EXCEPTION", "Unhandled worker exception", none, none, some detail⟩

/-- The tuning overrides of an init message (`msg.overrides`, lines
349-355); `some` means a finite number was supplied. -/
structure Overrides where
  jpegQualityStart : Option ℚ
  jpegMinQuality : Option ℚ
  jpegQualityStep : Option ℚ
  maxQualityIters : Option ℕ
  maxResizePasses : Option ℕ
  resizeDownFactor : Option ℚ
deriving Repr

/-- An init message: `config.constraints.images.max_long_side_px` and
`.target_max_bytes` (`some` iff `isFiniteNumber` holds of the supplied
value), the overrides, and the optional HEIC WASM decoder handle. -/
structure InitConfig where
  maxLongSide : Option ℚ
  targetMax : Option ℚ
  overrides : Overrides
  heicWasmDecoder : Option WasmBehavior
deriving Repr

/-- An incoming message (`ev.data`). -/
inductive Msg where
  | init (c : InitConfig)
  | process (requestId : Option String) (file : Option JsFile)
  | other (t : String)

/-- The initial worker state (lines 17-28). -/
def initialState : WorkerState :=
  ⟨⟨false, 2560, none, 19/20, 13/20, 1/20, 8, 4, 9/10⟩, none⟩

/-- The init branch (lines 339-381). -/
def handleInit (s : WorkerState) (c : InitConfig) (hasImageDecoder : Bool) :
    WorkerState × Response :=
  let rt : Runtime :=
    { ready := true
      maxLongSidePx := c.maxLongSide.getD 2560
      targetMaxBytes := c.targetMax
      jpegQualityStart := c.overrides.jpegQualityStart.getD s.rt.jpegQualityStart
      jpegMinQuality := c.overrides.jpegMinQuality.getD s.rt.jpegMinQuality
      jpegQualityStep := c.overrides.jpegQualityStep.getD s.rt.jpegQualityStep
      maxQualityIters := c.overrides.maxQualityIters.getD s.rt.maxQualityIters
      maxResizePasses := c.overrides.maxResizePasses.getD s.rt.maxResizePasses
      resizeDownFactor := c.overrides.resizeDownFactor.getD s.rt.resizeDownFactor }
  let heicWasm := match c.heicWasmDecoder with
    | some d => some d
    | none => s.heicWasm
  let warnings := if truthy c.targetMax then ([] : List String)
    else ["Missing constraints.images.target_max_bytes in Config.DB — processing will fail until provided."]
  (⟨rt, heicWasm⟩,
   .initOk ⟨rt.maxLongSidePx, rt.targetMaxBytes, heicWasm.isSome, hasImageDecoder, warnings⟩)

/-- The argument validation of `renderResizedJpeg` (lines 255-256);
`OffscreenCanvas` is assumed available in the worker. -/
def renderResizedJpegChecked (rt : Runtime) (encode : ℕ → ℕ → ℚ → ℕ)
    (maxLong target : ℚ) (srcW srcH orientation : ℕ) : Except String EncodeResult :=
  if maxLong ≤ 0 then .error "Invalid maxLongSidePx"
  else if target ≤ 0 then .error "Invalid targetMaxBytes"
  else .ok (renderResizedJpeg rt encode maxLong target srcW srcH orientation)

/-- The tail of the process branch once a decode succeeded (lines
425-462): `decoded.orientation || 1`, the encoder call whose thrown
validation errors the outer catch maps to the catch-all payload, and the
success payload with its debug trace. -/
def finishProcess (s : WorkerState) (env : DecodeEnv) (rid : String) (f : JsFile)
    (mime : String) (d : Decoded) : Response :=
  let orientation := if d.orientation = 0 then 1 else d.orientation
  match renderResizedJpegChecked s.rt env.encode s.rt.maxLongSidePx
      (s.rt.targetMaxBytes.getD 0) d.bitmap.width d.bitmap.height orientation with
  | .error e => .failure (workerExceptionPayload e)
  | .ok n =>
    .processOk ⟨rid, mime, f.size, n.size, n.width, n.height,
      n.bestEffortOverLimit, n.quality, n.scale, n.pass, n.iter⟩

/-- The process branch (lines 383-463). -/
def handleProcess (s : WorkerState) (env : DecodeEnv) (rid? : Option String)
    (file? : Option JsFile) : Response :=
  if s.rt.ready = false then .failure notInitPayload
  else if truthy s.rt.targetMaxBytes = false then .failure configMissingPayload
  else
    let rid := rid?.getD ""
    match file? with
    | none => .failure (noFilePayload rid)
    | some f =>
      let mime := inferMime f
      if isHeicLike mime then
        match bitmapFromHeic s env with
        | .error e => .failure (heicFailedPayload rid e)
        | .ok d => finishProcess s env rid f mime d
      else
        match bitmapFromNonHeic env f with
        | .error e => .failure (workerExceptionPayload e)
        | .ok d => finishProcess s env rid f mime d

/-- `self.onmessage` (line 334) as a transition function: new worker state
and posted response. -/
def handleMessage (s : WorkerState) (env : DecodeEnv) (m : Msg) :
    WorkerState × Response :=
  match m with
  | .init c => handleInit s c env.hasImageDecoder
  | .process rid file => (s, handleProcess s env rid file)
  | .other t => (s, .failure (unknownPayload t))

/-- The quality sequence the inner loop steps through: `q` starts at
`jpegQualityStart` and each unsuccessful iteration sets
`q = max(jpegMinQuality, q - jpegQualityStep)` (line 292). -/
def qSeq (minQ step start : ℚ) : ℕ → ℚ
  | 0 => start
  | i + 1 => max minQ (qSeq minQ step start i - step)

/-! ## Concrete fixtures for witnesses and counterexamples -/

/-- A constant-size encode oracle. -/
def sampleEnc : ℕ → ℕ → ℚ → ℕ := fun _ _ _ => 1000

/-- A platform without WebCodecs where both `createImageBitmap` paths
yield a 100×100 bitmap. -/
def sampleEnv : DecodeEnv := ⟨false, none, some ⟨100, 100⟩, .ok ⟨100, 100⟩, sampleEnc⟩

/-- A small JPEG process-request file. -/
def sampleFile : JsFile := ⟨"image/jpeg", "a.jpg", 5000, []⟩

/-- A HEIC process-request file. -/
def heicFile : JsFile := ⟨"image/heic", "a.heic", 5000, []⟩

/-- An init message with no tuning overrides. -/
def noOverrides : Overrides := ⟨none, none, none, none, none, none⟩

/-- Init whose `target_max_bytes` is the finite but negative number -1. -/
def negTargetInit : InitConfig := ⟨none, some (-1), noOverrides, none⟩

/-- Init with no `target_max_bytes` at all. -/
def missingTargetInit : InitConfig := ⟨none, none, noOverrides, none⟩

/-- A first, complete configuration. -/
def initA : InitConfig := ⟨some 1000, some 100000, noOverrides, none⟩

/-- A second configuration with a different long-side limit. -/
def initB : InitConfig := ⟨some 2000, some 100000, noOverrides, none⟩

/-- The worker state after handling `initA`. -/
def readyState : WorkerState := (handleMessage initialState sampleEnv (.init initA)).1

/-- The worker state after handling an init with no byte budget. -/
def noTargetState : WorkerState :=
  (handleMessage initialState sampleEnv (.init missingTargetInit)).1

/-- The encoder run a process of `sampleFile` performs in `readyState`. -/
def sampleRun : EncodeResult :=
  renderResizedJpeg readyState.rt sampleEnv.encode readyState.rt.maxLongSidePx
    (readyState.rt.targetMaxBytes.getD 0) 100 100 1

/-- The success payload of that process request. -/
def samplePayload : ProcessOkPayload :=
  ⟨"r1", "image/jpeg", 5000, sampleRun.size, sampleRun.width, sampleRun.height,
   sampleRun.bestEffortOverLimit, sampleRun.quality, sampleRun.scale,
   sampleRun.pass, sampleRun.iter⟩

/-! ## Lemmas: the EXIF reader only produces values in [1, 8] -/

lemma scanEntries_range (bytes : List ℕ) (little : Bool) (base : ℕ) :
    ∀ rem i v, scanEntries bytes little base i rem = some v → 1 ≤ v ∧ v ≤ 8 := by
  intro rem
  induction rem with
  | zero =>
    intro i v h
    simp only [scanEntries, Option.some.injEq] at h
    omega
  | succ n ih =>
    intro i v h
    simp only [scanEntries] at h
    split at h
    · simp only [Option.some.injEq] at h
      omega
    · split at h
      · exact absurd h (by simp)
      · split at h
        · split at h
          · split at h
            · simp only [Option.some.injEq] at h
              omega
            · split at h
              · exact absurd h (by simp)
              · split at h
                · rename_i hv
                  simp only [Option.some.injEq] at h
                  omega
                · simp only [Option.some.injEq] at h
                  omega
          · exact absurd h (by simp)
        · exact ih (i + 1) v h

lemma parseTiff_range (bytes : List ℕ) (tiffOffset : ℕ) :
    ∀ v, parseTiff bytes tiffOffset = some v → 1 ≤ v ∧ v ≤ 8 := by
  intro v h
  simp only [parseTiff] at h
  split at h
  · exact absurd h (by simp)
  · split at h
    · exact absurd h (by simp)
    · split at h
      · simp only [Option.some.injEq] at h
        omega
      · split at h
        · exact absurd h (by simp)
        · split at h
          · simp only [Option.some.injEq] at h
            omega
          · split at h
            · exact absurd h (by simp)
            · exact scanEntries_range bytes _ _ _ _ v h

lemma markerLoop_range (bytes : List ℕ) :
    ∀ fuel offset v, markerLoop bytes offset fuel = some v → 1 ≤ v ∧ v ≤ 8 := by
  intro fuel
  induction fuel with
  | zero =>
    intro offset v h
    exact absurd h (by simp [markerLoop])
  | succ n ih =>
    intro offset v h
    simp only [markerLoop] at h
    split at h
    · simp only [Option.some.injEq] at h
      omega
    · split at h
      · exact absurd h (by simp)
      · split at h
        · simp only [Option.some.injEq] at h
          omega
        · split at h
          · exact absurd h (by simp)
          · split at h
            · simp only [Option.some.injEq] at h
              omega
            · split at h
              · split at h
                · exact absurd h (by simp)
                · split at h
                  · exact ih _ v h
                  · split at h
                    · exact absurd h (by simp)
                    · split at h
                      · exact ih _ v h
                      · exact parseTiff_range bytes _ v h
              · exact ih _ v h

lemma parseOrientation_range (bytes : List ℕ) :
    ∀ v, parseOrientation bytes = some v → 1 ≤ v ∧ v ≤ 8 := by
  intro v h
  simp only [parseOrientation] at h
  split at h
  · exact absurd h (by simp)
  · split at h
    · simp only [Option.some.injEq] at h
      omega
    · exact markerLoop_range bytes _ _ v h

/-- C2: for every byte stream the EXIF orientation reader terminates (it is
a total function) and returns an integer in [1, 8]; in particular a stream
that does not start with the JPEG SOI marker 0xFFD8 yields 1. -/
theorem exif_reader_total_in_range_c2 (bytes : List ℕ) :
    (1 ≤ readJpegExifOrientation bytes ∧ readJpegExifOrientation bytes ≤ 8) ∧
      (getU16 false bytes 0 ≠ some 0xFFD8 → readJpegExifOrientation bytes = 1) := by
  constructor
  · unfold readJpegExifOrientation
    cases h : parseOrientation bytes with
    | none => simp [Option.getD]
    | some v =>
      have := parseOrientation_range bytes v h
      simpa [Option.getD] using this
  · intro hsoi
    unfold readJpegExifOrientation parseOrientation
    cases h : getU16 false bytes 0 with
    | none => simp
    | some soi =>
      have : soi ≠ 0xFFD8 := by
        intro he
        exact hsoi (by rw [h, he])
      simp [this]

/-- Witness for C2 at the concrete stream `[0, 0]` (wrong SOI marker). -/
theorem exif_reader_total_in_range_c2_witness :
    (1 ≤ readJpegExifOrientation [0, 0] ∧ readJpegExifOrientation [0, 0] ≤ 8) ∧
      readJpegExifOrientation [0, 0] = 1 :=
  ⟨(exif_reader_total_in_range_c2 [0, 0]).1,
   (exif_reader_total_in_range_c2 [0, 0]).2 (by decide)⟩

/-! ## Lemmas: the size-constrained encoder -/

lemma qualityLoop_some_spec (encode : ℕ → ℕ → ℚ → ℕ) (target minQ step : ℚ)
    (outW outH : ℕ) (scl : ℚ) (pass : ℕ) :
    ∀ fuel q iter r,
      qualityLoop encode target minQ step outW outH scl pass q iter fuel = some r →
      r.bestEffortOverLimit = false ∧ ((r.size : ℚ) ≤ target) ∧ r.width = outW ∧
        r.height = outH ∧ r.scale = scl ∧ r.pass = pass ∧ min minQ q ≤ r.quality := by
  intro fuel
  induction fuel with
  | zero =>
    intro q iter r h
    exact absurd h (by simp [qualityLoop])
  | succ n ih =>
    intro q iter r h
    simp only [qualityLoop] at h
    split at h
    · rename_i hsize
      cases h
      exact ⟨rfl, hsize, rfl, rfl, rfl, rfl, min_le_right _ _⟩
    · split at h
      · exact absurd h (by simp)
      · have hrec := ih _ _ r h
        refine ⟨hrec.1, hrec.2.1, hrec.2.2.1, hrec.2.2.2.1, hrec.2.2.2.2.1,
          hrec.2.2.2.2.2.1, le_trans ?_ hrec.2.2.2.2.2.2⟩
        have hq : minQ ≤ max minQ (q - step) := le_max_left _ _
        calc min minQ q ≤ minQ := min_le_left _ _
          _ = min minQ (max minQ (q - step)) := (min_eq_left hq).symm

lemma resizeLoop_spec (rt : Runtime) (encode : ℕ → ℕ → ℚ → ℕ) (target : ℚ) (oW oH : ℕ) :
    ∀ fuel s p,
      ((resizeLoop rt encode target oW oH s p fuel).bestEffortOverLimit = true ↔
        target < ((resizeLoop rt encode target oW oH s p fuel).size : ℚ)) ∧
      (resizeLoop rt encode target oW oH s p fuel).width
        = jdim oW (resizeLoop rt encode target oW oH s p fuel).scale ∧
      (resizeLoop rt encode target oW oH s p fuel).height
        = jdim oH (resizeLoop rt encode target oW oH s p fuel).scale := by
  intro fuel
  induction fuel with
  | zero =>
    intro s p
    simp [resizeLoop, finalRender]
  | succ n ih =>
    intro s p
    simp only [resizeLoop]
    split
    · rename_i best hbest
      obtain ⟨hflag, hsize, hw, hh, hscale, -, -⟩ :=
        qualityLoop_some_spec encode target _ _ _ _ _ _ _ _ _ best hbest
      refine ⟨?_, by rw [hw, hscale], by rw [hh, hscale]⟩
      constructor
      · intro hf
        rw [hflag] at hf
        cases hf
      · intro hlt
        exact absurd hsize (not_le.mpr hlt)
    · exact ih _ _

lemma resizeLoop_scale_spec (rt : Runtime) (encode : ℕ → ℕ → ℚ → ℕ) (target : ℚ) (oW oH : ℕ) :
    ∀ fuel s p, p + fuel = rt.maxResizePasses →
      ∃ k, k ≤ fuel ∧ (resizeLoop rt encode target oW oH s p fuel).pass = p + k ∧
        (resizeLoop rt encode target oW oH s p fuel).scale = s * rt.resizeDownFactor ^ k := by
  intro fuel
  induction fuel with
  | zero =>
    intro s p hp
    refine ⟨0, le_refl 0, ?_, by simp [resizeLoop, finalRender]⟩
    simp only [resizeLoop, finalRender]
    omega
  | succ n ih =>
    intro s p hp
    simp only [resizeLoop]
    split
    · rename_i best hbest
      obtain ⟨-, -, -, -, hscale, hpass, -⟩ :=
        qualityLoop_some_spec encode target _ _ _ _ _ _ _ _ _ best hbest
      exact ⟨0, Nat.zero_le _, by omega, by rw [hscale]; ring⟩
    · obtain ⟨k, hk, hpass, hscale⟩ := ih (s * rt.resizeDownFactor) (p + 1) (by omega)
      refine ⟨k + 1, by omega, by omega, ?_⟩
      rw [hscale, pow_succ]
      ring

lemma qualityLoopCalls_le (encode : ℕ → ℕ → ℚ → ℕ) (target minQ step : ℚ) (outW outH : ℕ) :
    ∀ fuel q, qualityLoopCalls encode target minQ step outW outH q fuel ≤ fuel := by
  intro fuel
  induction fuel with
  | zero => intro q; simp [qualityLoopCalls]
  | succ n ih =>
    intro q
    simp only [qualityLoopCalls]
    split
    · omega
    · split
      · omega
      · have := ih (max minQ (q - step))
        omega

lemma resizeLoopCalls_le (rt : Runtime) (encode : ℕ → ℕ → ℚ → ℕ) (target : ℚ) (oW oH : ℕ) :
    ∀ fuel s, resizeLoopCalls rt encode target oW oH s fuel
      ≤ fuel * rt.maxQualityIters + 1 := by
  intro fuel
  induction fuel with
  | zero => intro s; simp [resizeLoopCalls]
  | succ n ih =>
    intro s
    simp only [resizeLoopCalls]
    have hq := qualityLoopCalls_le encode target rt.jpegMinQuality rt.jpegQualityStep
      (jdim oW s) (jdim oH s) rt.maxQualityIters rt.jpegQualityStart
    rw [Nat.succ_mul]
    split
    · omega
    · have := ih (s * rt.resizeDownFactor)
      omega

/-- The over-limit flag of a finished encoder run is `true` exactly when the
produced byte size exceeds the target. -/
lemma renderResizedJpeg_overLimit (rt : Runtime) (encode : ℕ → ℕ → ℚ → ℕ)
    (maxLong target : ℚ) (srcW srcH orientation : ℕ) :
    ((renderResizedJpeg rt encode maxLong target srcW srcH orientation).bestEffortOverLimit = true ↔
      target < ((renderResizedJpeg rt encode maxLong target srcW srcH orientation).size : ℚ)) := by
  simp only [renderResizedJpeg]
  exact (resizeLoop_spec rt encode target _ _ rt.maxResizePasses _ 0).1

/-- The finished run's dimensions are computed from the oriented size at the
returned scale. -/
lemma renderResizedJpeg_dims (rt : Runtime) (encode : ℕ → ℕ → ℚ → ℕ)
    (maxLong target : ℚ) (srcW srcH orientation : ℕ) :
    (renderResizedJpeg rt encode maxLong target srcW srcH orientation).width
      = jdim (orientedSize srcW srcH orientation).1
          (renderResizedJpeg rt encode maxLong target srcW srcH orientation).scale ∧
    (renderResizedJpeg rt encode maxLong target srcW srcH orientation).height
      = jdim (orientedSize srcW srcH orientation).2
          (renderResizedJpeg rt encode maxLong target srcW srcH orientation).scale := by
  simp only [renderResizedJpeg]
  exact ⟨(resizeLoop_spec rt encode target _ _ rt.maxResizePasses _ 0).2.1,
    (resizeLoop_spec rt encode target _ _ rt.maxResizePasses _ 0).2.2⟩

/-- C1: for every raster, orientation and positive limits, the encoder is a
total function whose bounded search performs at most
`maxResizePasses * maxQualityIters + 1` encodes, and its result is within
the byte limit or flagged `bestEffortOverLimit`. -/
theorem encoder_bounded_best_effort_c1 (rt : Runtime) (encode : ℕ → ℕ → ℚ → ℕ)
    (maxLong target : ℚ) (srcW srcH orientation : ℕ)
    (hml : 0 < maxLong) (htgt : 0 < target) :
    (((renderResizedJpeg rt encode maxLong target srcW srcH orientation).size : ℚ) ≤ target ∨
      (renderResizedJpeg rt encode maxLong target srcW srcH orientation).bestEffortOverLimit = true) ∧
    renderEncodeCalls rt encode maxLong target srcW srcH orientation
      ≤ rt.maxResizePasses * rt.maxQualityIters + 1 := by
  constructor
  · by_cases hlt : target < ((renderResizedJpeg rt encode maxLong target srcW srcH orientation).size : ℚ)
    · exact Or.inr ((renderResizedJpeg_overLimit rt encode maxLong target srcW srcH orientation).mpr hlt)
    · exact Or.inl (not_lt.mp hlt)
  · simp only [renderEncodeCalls]
    exact resizeLoopCalls_le rt encode target _ _ rt.maxResizePasses _

/-- Witness for C1 at concrete limits and a constant-size encode oracle. -/
theorem encoder_bounded_best_effort_c1_witness :
    ((((renderResizedJpeg initialState.rt (fun _ _ _ => 1000) 100 5000 40 30 1).size : ℚ) ≤ 5000 ∨
      (renderResizedJpeg initialState.rt (fun _ _ _ => 1000) 100 5000 40 30 1).bestEffortOverLimit = true) ∧
    renderEncodeCalls initialState.rt (fun _ _ _ => 1000) 100 5000 40 30 1
      ≤ initialState.rt.maxResizePasses * initialState.rt.maxQualityIters + 1) :=
  encoder_bounded_best_effort_c1 initialState.rt (fun _ _ _ => 1000) 100 5000 40 30 1
    (by norm_num) (by norm_num)

/-- C6: the initial scale is `min(1, maxLongSidePx / orientedLongSide)` —
never an upscale — and across resize passes the scale is monotonically
non-increasing and never exceeds 1 (for a down-factor in [0, 1], as the
configuration intends); the returned result's scale is the per-pass scale
at its pass index. -/
theorem scale_monotone_c6 (rt : Runtime) (encode : ℕ → ℕ → ℚ → ℕ)
    (maxLong target : ℚ) (srcW srcH orientation : ℕ)
    (hml : 0 < maxLong) (hls : 0 < orientedLongSide srcW srcH orientation)
    (hrdf0 : 0 ≤ rt.resizeDownFactor) (hrdf1 : rt.resizeDownFactor ≤ 1) :
    initialScale maxLong (orientedLongSide srcW srcH orientation)
      = min 1 (maxLong / ((orientedLongSide srcW srcH orientation : ℕ) : ℚ)) ∧
    (∀ k, scaleAtPass maxLong rt.resizeDownFactor (orientedLongSide srcW srcH orientation) (k + 1)
      ≤ scaleAtPass maxLong rt.resizeDownFactor (orientedLongSide srcW srcH orientation) k) ∧
    (∀ k, scaleAtPass maxLong rt.resizeDownFactor (orientedLongSide srcW srcH orientation) k ≤ 1) ∧
    (∃ k, k ≤ rt.maxResizePasses ∧
      (renderResizedJpeg rt encode maxLong target srcW srcH orientation).pass = k ∧
      (renderResizedJpeg rt encode maxLong target srcW srcH orientation).scale
        = scaleAtPass maxLong rt.resizeDownFactor (orientedLongSide srcW srcH orientation) k) := by
  have hL : (0 : ℚ) < ((orientedLongSide srcW srcH orientation : ℕ) : ℚ) := by
    exact_mod_cast hls
  have hmin : initialScale maxLong (orientedLongSide srcW srcH orientation)
      = min 1 (maxLong / ((orientedLongSide srcW srcH orientation : ℕ) : ℚ)) := by
    unfold initialScale
    by_cases h : maxLong < ((orientedLongSide srcW srcH orientation : ℕ) : ℚ)
    · rw [if_pos h]
      exact (min_eq_right ((div_le_one hL).mpr (le_of_lt h))).symm
    · rw [if_neg h]
      exact (min_eq_left ((one_le_div hL).mpr (not_lt.mp h))).symm
  have hinit0 : 0 ≤ initialScale maxLong (orientedLongSide srcW srcH orientation) := by
    unfold initialScale
    split
    · exact div_nonneg (le_of_lt hml) (le_of_lt hL)
    · exact zero_le_one
  have hinit1 : initialScale maxLong (orientedLongSide srcW srcH orientation) ≤ 1 := by
    rw [hmin]
    exact min_le_left _ _
  refine ⟨hmin, ?_, ?_, ?_⟩
  · intro k
    unfold scaleAtPass
    rw [pow_succ, ← mul_assoc]
    exact mul_le_of_le_one_right
      (mul_nonneg hinit0 (pow_nonneg hrdf0 k)) hrdf1
  · intro k
    unfold scaleAtPass
    calc initialScale maxLong (orientedLongSide srcW srcH orientation) * rt.resizeDownFactor ^ k
        ≤ 1 * 1 := mul_le_mul hinit1 (pow_le_one₀ hrdf0 hrdf1) (pow_nonneg hrdf0 k) zero_le_one
      _ = 1 := by norm_num
  · obtain ⟨k, hk, hpass, hscale⟩ := resizeLoop_scale_spec rt encode target
      (orientedSize srcW srcH orientation).1 (orientedSize srcW srcH orientation).2
      rt.maxResizePasses (initialScale maxLong (orientedLongSide srcW srcH orientation)) 0
      (by omega)
    refine ⟨k, hk, ?_, ?_⟩
    · simp only [renderResizedJpeg]
      omega
    · simp only [renderResizedJpeg]
      rw [hscale]
      rfl

/-- Witness for C6 at the default runtime, limit 100, a 40×30 raster. -/
theorem scale_monotone_c6_witness :
    initialScale 100 (orientedLongSide 40 30 1)
      = min 1 ((100 : ℚ) / ((orientedLongSide 40 30 1 : ℕ) : ℚ)) ∧
    (∀ k, scaleAtPass 100 initialState.rt.resizeDownFactor (orientedLongSide 40 30 1) (k + 1)
      ≤ scaleAtPass 100 initialState.rt.resizeDownFactor (orientedLongSide 40 30 1) k) ∧
    (∀ k, scaleAtPass 100 initialState.rt.resizeDownFactor (orientedLongSide 40 30 1) k ≤ 1) ∧
    (∃ k, k ≤ initialState.rt.maxResizePasses ∧
      (renderResizedJpeg initialState.rt sampleEnc 100 5000 40 30 1).pass = k ∧
      (renderResizedJpeg initialState.rt sampleEnc 100 5000 40 30 1).scale
        = scaleAtPass 100 initialState.rt.resizeDownFactor (orientedLongSide 40 30 1) k) :=
  scale_monotone_c6 initialState.rt sampleEnc 100 5000 40 30 1
    (by norm_num) (by decide) (by norm_num [initialState]) (by norm_num [initialState])

/-- C7: the inner loop's quality updates are `max(jpegMinQuality, q - step)`,
so from the first update on the quality never sits below the configured
floor; when an update cannot change the quality any more (the floor was
reached) the quality loop breaks with no further encodes; and an accepted
attempt's quality is bounded below by `min(jpegMinQuality, jpegQualityStart)`. -/
theorem quality_floor_c7 (encode : ℕ → ℕ → ℚ → ℕ) (target minQ step start : ℚ)
    (outW outH : ℕ) (scl : ℚ) (pass : ℕ) :
    (∀ i, qSeq minQ step start (i + 1) = max minQ (qSeq minQ step start i - step)) ∧
    (∀ i, minQ ≤ qSeq minQ step start (i + 1)) ∧
    (∀ q iter fuel, ¬ ((encode outW outH q : ℚ) ≤ target) → max minQ (q - step) = q →
      qualityLoop encode target minQ step outW outH scl pass q iter (fuel + 1) = none) ∧
    (∀ fuel r, qualityLoop encode target minQ step outW outH scl pass start 0 fuel = some r →
      min minQ start ≤ r.quality) := by
  refine ⟨fun i => rfl, fun i => le_max_left _ _, ?_, ?_⟩
  · intro q iter fuel hbig hfix
    simp only [qualityLoop]
    rw [if_neg hbig, if_pos hfix]
  · intro fuel r h
    exact (qualityLoop_some_spec encode target minQ step outW outH scl pass
      fuel start 0 r h).2.2.2.2.2.2

/-- Witness for C7: at the default floor 0.65 and step 0.05, an encode that
is still over target at the floor makes the loop break immediately. -/
theorem quality_floor_c7_witness :
    qualityLoop (fun _ _ _ => 10) 5 (13/20) (1/20) 8 6 1 0 (13/20) 3 4 = none :=
  (quality_floor_c7 (fun _ _ _ => 10) 5 (13/20) (1/20) (19/20) 8 6 1 0).2.2.1
    (13/20) 3 3 (by norm_num) (by
      rw [max_eq_left]
      norm_num)

/-- C3: for every tag in [1, 8] the compositor paints a surface of exactly
the oriented target size `outW × outH` (the canvas it is handed); tags 5-8
are exactly the tags for which `orientedSize` swaps the raw decoded
dimensions — and for which the compositor's `drawImage` call swaps its
size arguments — and the encoder's output dimensions are computed from the
oriented size, never the raw decode size. -/
theorem compositor_surface_and_swap_c3 (orientation srcW srcH outW outH : ℕ)
    (h1 : 1 ≤ orientation) (h8 : orientation ≤ 8) :
    (drawBitmapWithOrientation orientation outW outH).surfaceW = outW ∧
    (drawBitmapWithOrientation orientation outW outH).surfaceH = outH ∧
    orientedSize srcW srcH orientation
      = (if 5 ≤ orientation then (srcH, srcW) else (srcW, srcH)) ∧
    (drawBitmapWithOrientation orientation outW outH).drawW
      = (if 5 ≤ orientation then outH else outW) ∧
    (drawBitmapWithOrientation orientation outW outH).drawH
      = (if 5 ≤ orientation then outW else outH) ∧
    (∀ (rt : Runtime) (encode : ℕ → ℕ → ℚ → ℕ) (maxLong target : ℚ),
      (renderResizedJpeg rt encode maxLong target srcW srcH orientation).width
        = jdim (orientedSize srcW srcH orientation).1
            (renderResizedJpeg rt encode maxLong target srcW srcH orientation).scale ∧
      (renderResizedJpeg rt encode maxLong target srcW srcH orientation).height
        = jdim (orientedSize srcW srcH orientation).2
            (renderResizedJpeg rt encode maxLong target srcW srcH orientation).scale) := by
  refine ⟨?_, ?_, ?_, ?_, ?_, fun rt encode maxLong target =>
    renderResizedJpeg_dims rt encode maxLong target srcW srcH orientation⟩ <;>
    interval_cases orientation <;>
    simp [drawBitmapWithOrientation, orientedSize]

/-- Witness for C3 at tag 6 (a 90° rotation). -/
theorem compositor_surface_and_swap_c3_witness :
    (drawBitmapWithOrientation 6 20 30).surfaceW = 20 ∧
    (drawBitmapWithOrientation 6 20 30).surfaceH = 30 ∧
    orientedSize 40 25 6 = (if 5 ≤ 6 then (25, 40) else (40, 25)) ∧
    (drawBitmapWithOrientation 6 20 30).drawW = (if 5 ≤ 6 then 30 else 20) ∧
    (drawBitmapWithOrientation 6 20 30).drawH = (if 5 ≤ 6 then 20 else 30) ∧
    (∀ (rt : Runtime) (encode : ℕ → ℕ → ℚ → ℕ) (maxLong target : ℚ),
      (renderResizedJpeg rt encode maxLong target 40 25 6).width
        = jdim (orientedSize 40 25 6).1 (renderResizedJpeg rt encode maxLong target 40 25 6).scale ∧
      (renderResizedJpeg rt encode maxLong target 40 25 6).height
        = jdim (orientedSize 40 25 6).2 (renderResizedJpeg rt encode maxLong target 40 25 6).scale) :=
  compositor_surface_and_swap_c3 6 40 25 20 30 (by norm_num) (by norm_num)

/-! ## Lemmas: shape of dispatcher responses -/

lemma handleProcess_failure_shape (s : WorkerState) (env : DecodeEnv)
    (rid? : Option String) (file? : Option JsFile) (e : ErrPayload)
    (h : handleProcess s env rid? file? = .failure e) :
    e = notInitPayload ∨ e = configMissingPayload ∨ (∃ rid, e = noFilePayload rid) ∨
      (∃ rid d, e = heicFailedPayload rid d) ∨ (∃ d, e = workerExceptionPayload d) := by
  simp only [handleProcess] at h
  split at h
  · simp only [Response.failure.injEq] at h
    exact Or.inl h.symm
  · split at h
    · simp only [Response.failure.injEq] at h
      exact Or.inr (Or.inl h.symm)
    · split at h
      · simp only [Response.failure.injEq] at h
        exact Or.inr (Or.inr (Or.inl ⟨_, h.symm⟩))
      · split at h
        · split at h
          · simp only [Response.failure.injEq] at h
            exact Or.inr (Or.inr (Or.inr (Or.inl ⟨_, _, h.symm⟩)))
          · simp only [finishProcess] at h
            split at h
            · simp only [Response.failure.injEq] at h
              exact Or.inr (Or.inr (Or.inr (Or.inr ⟨_, h.symm⟩)))
            · exact absurd h (by simp)
        · split at h
          · simp only [Response.failure.injEq] at h
            exact Or.inr (Or.inr (Or.inr (Or.inr ⟨_, h.symm⟩)))
          · simp only [finishProcess] at h
            split at h
            · simp only [Response.failure.injEq] at h
              exact Or.inr (Or.inr (Or.inr (Or.inr ⟨_, h.symm⟩)))
            · exact absurd h (by simp)

lemma handleMessage_failure_shape (s : WorkerState) (env : DecodeEnv) (m : Msg)
    (e : ErrPayload) (h : (handleMessage s env m).2 = .failure e) :
    e = notInitPayload ∨ e = configMissingPayload ∨ (∃ rid, e = noFilePayload rid) ∨
      (∃ rid d, e = heicFailedPayload rid d) ∨ (∃ d, e = workerExceptionPayload d) ∨
      (∃ t, e = unknownPayload t) := by
  cases m with
  | init c =>
    exact absurd h (by simp [handleMessage, handleInit])
  | process rid file =>
    rcases handleProcess_failure_shape s env rid file e h with h1 | h2 | h3 | h4 | h5
    · exact Or.inl h1
    · exact Or.inr (Or.inl h2)
    · exact Or.inr (Or.inr (Or.inl h3))
    · exact Or.inr (Or.inr (Or.inr (Or.inl h4)))
    · exact Or.inr (Or.inr (Or.inr (Or.inr (Or.inl h5))))
  | other t =>
    simp only [handleMessage, Response.failure.injEq] at h
    exact Or.inr (Or.inr (Or.inr (Or.inr (Or.inr ⟨t, h.symm⟩))))

lemma handleProcess_ok_overLimit (s : WorkerState) (env : DecodeEnv)
    (rid? : Option String) (file? : Option JsFile) (p : ProcessOkPayload)
    (h : handleProcess s env rid? file? = .processOk p) :
    (p.debugOverLimit = true ↔
      (s.rt.targetMaxBytes.getD 0 : ℚ) < (p.normalizedBytes : ℚ)) := by
  simp only [handleProcess] at h
  split at h
  · exact absurd h (by simp)
  · split at h
    · exact absurd h (by simp)
    · split at h
      · exact absurd h (by simp)
      · rename_i f
        have hfin : ∀ (d : Decoded) (mime : String),
            finishProcess s env (rid?.getD "") f mime d = .processOk p →
            (p.debugOverLimit = true ↔
              (s.rt.targetMaxBytes.getD 0 : ℚ) < (p.normalizedBytes : ℚ)) := by
          intro d mime hf
          simp only [finishProcess] at hf
          split at hf
          · exact absurd hf (by simp)
          · rename_i n heq
            simp only [Response.processOk.injEq] at hf
            subst hf
            simp only [renderResizedJpegChecked] at heq
            split at heq
            · exact absurd heq (by simp)
            · split at heq
              · exact absurd heq (by simp)
              · simp only [Except.ok.injEq] at heq
                subst heq
                exact renderResizedJpeg_overLimit s.rt env.encode s.rt.maxLongSidePx
                  (s.rt.targetMaxBytes.getD 0) d.bitmap.width d.bitmap.height
                  (if d.orientation = 0 then 1 else d.orientation)
        split at h
        · split at h
          · exact absurd h (by simp)
          · exact hfin _ _ h
        · split at h
          · exact absurd h (by simp)
          · exact hfin _ _ h

lemma handleMessage_ok_overLimit (s : WorkerState) (env : DecodeEnv) (m : Msg)
    (p : ProcessOkPayload) (h : (handleMessage s env m).2 = .processOk p) :
    (p.debugOverLimit = true ↔
      (s.rt.targetMaxBytes.getD 0 : ℚ) < (p.normalizedBytes : ℚ)) := by
  cases m with
  | init c => exact absurd h (by simp [handleMessage, handleInit])
  | process rid file => exact handleProcess_ok_overLimit s env rid file p h
  | other t => exact absurd h (by simp [handleMessage])

/-- C4 (amended): if `targetMaxBytes` was not configured as a nonzero
finite number (so the stored value is falsy: `null` or `0`), initialization
still succeeds while emitting a warning, and every subsequent process
request fails fast with the Missing-size-budget configuration error — for
every decode environment, so before any decoding or encoding — leaving the
state unchanged and producing no partial output. -/
theorem target_bytes_guard_c4_amended :
    (∀ (s : WorkerState) (env : DecodeEnv) (rid : Option String) (file : Option JsFile),
      s.rt.ready = true → truthy s.rt.targetMaxBytes = false →
      handleMessage s env (.process rid file) = (s, .failure configMissingPayload)) ∧
    (∀ (s : WorkerState) (c : InitConfig) (hid : Bool), truthy c.targetMax = false →
      ∃ p, (handleInit s c hid).2 = .initOk p ∧ p.warnings ≠ []) := by
  constructor
  · intro s env rid file hready htgt
    simp [handleMessage, handleProcess, hready, htgt]
  · intro s c hid htgt
    refine ⟨_, rfl, ?_⟩
    simp [handleInit, htgt]

/-- Counterexample to C4 as stated: the finite but negative budget `-1` is
not a positive finite number, yet init emits no warning, and the following
process request is not rejected with the configuration error — it reaches
the pipeline and dies as an unhandled exception from the encoder's own
argument validation. -/
theorem target_bytes_guard_c4_counterexample :
    (handleMessage initialState sampleEnv (.init negTargetInit)).2
      = .initOk ⟨2560, some (-1), false, false, []⟩ ∧
    (handleMessage (handleMessage initialState sampleEnv (.init negTargetInit)).1 sampleEnv
        (.process (some "r1") (some sampleFile))).2
      = .failure (workerExceptionPayload "Invalid targetMaxBytes") :=
  ⟨by decide, by decide⟩

/-- Witness for C4 (amended) at the concrete no-budget state. -/
theorem target_bytes_guard_c4_witness :
    handleMessage noTargetState sampleEnv (.process (some "r1") (some sampleFile))
      = (noTargetState, .failure configMissingPayload) ∧
    (∃ p, (handleInit initialState missingTargetInit false).2 = .initOk p ∧ p.warnings ≠ []) :=
  ⟨target_bytes_guard_c4_amended.1 noTargetState sampleEnv (some "r1") (some sampleFile)
      (by decide) (by decide),
   target_bytes_guard_c4_amended.2 initialState missingTargetInit false (by decide)⟩

/-- C5: with no WebCodecs `ImageDecoder` and no configured WASM decoder, a
HEIC-like process request fails with the distinct HEIC-unavailable error
(whose fixed message tells the caller to supply a JPEG/PNG); and when the
WebCodecs strategy fails (is swallowed), the pipeline falls through to the
WASM strategy — returning its decode or its own error — instead of
aborting. -/
theorem heic_unavailable_error_c5 :
    (∀ (s : WorkerState) (env : DecodeEnv) (rid : Option String) (f : JsFile),
      s.rt.ready = true → truthy s.rt.targetMaxBytes = true →
      isHeicLike (inferMime f) = true → env.hasImageDecoder = false → s.heicWasm = none →
      (handleMessage s env (.process rid (some f))).2
        = .failure (heicFailedPayload (rid.getD "")
            "HEIC decode not available (no WebCodecs ImageDecoder and no WASM decoder provided)")) ∧
    (∀ (s : WorkerState) (env : DecodeEnv) (w h : ℕ) (hasRgba : Bool) (o : ℕ),
      env.webcodecsDecode = none → s.heicWasm = some (.payload w h hasRgba o) →
      ¬ (w = 0 ∨ h = 0 ∨ hasRgba = false) →
      bitmapFromHeic s env = .ok ⟨⟨w, h⟩, if o = 0 then 1 else o, "wasm_rgba"⟩) ∧
    (∀ (s : WorkerState) (env : DecodeEnv) (msg : String),
      env.webcodecsDecode = none → s.heicWasm = some (.throws msg) →
      bitmapFromHeic s env = .error msg) := by
  refine ⟨?_, ?_, ?_⟩
  · intro s env rid f hready htgt hheic hid hwasm
    simp [handleMessage, handleProcess, hready, htgt, hheic, bitmapFromHeic, hid, hwasm]
  · intro s env w h hasRgba o hwc hwasm hvalid
    simp only [bitmapFromHeic, hwc, hwasm]
    rw [if_neg hvalid]
    cases env.hasImageDecoder <;> simp
  · intro s env msg hwc hwasm
    simp only [bitmapFromHeic, hwc, hwasm]
    cases env.hasImageDecoder <;> simp

/-- Witness for C5 at the concrete no-decoder platform. -/
theorem heic_unavailable_error_c5_witness :
    (handleMessage readyState sampleEnv (.process (some "r1") (some heicFile))).2
      = .failure (heicFailedPayload "r1"
          "HEIC decode not available (no WebCodecs ImageDecoder and no WASM decoder provided)") :=
  heic_unavailable_error_c5.1 readyState sampleEnv (some "r1") heicFile
    (by decide) (by decide) (by decide) (by decide) (by decide)

/-- C8 (amended): only the no-file and HEIC-conversion failures carry the
request identifier; every failure response is one of the six fixed
payload shapes, and the not-initialized, missing-budget, unknown-message
and unhandled-exception payloads omit the request identifier. -/
theorem failure_request_id_c8_amended :
    (∀ rid, (noFilePayload rid).requestId = some rid) ∧
    (∀ rid d, (heicFailedPayload rid d).requestId = some rid) ∧
    notInitPayload.requestId = none ∧
    configMissingPayload.requestId = none ∧
    (∀ d, (workerExceptionPayload d).requestId = none) ∧
    (∀ t, (unknownPayload t).requestId = none) ∧
    (∀ (s : WorkerState) (env : DecodeEnv) (m : Msg) (e : ErrPayload),
      (handleMessage s env m).2 = .failure e →
      e = notInitPayload ∨ e = configMissingPayload ∨ (∃ rid, e = noFilePayload rid) ∨
        (∃ rid d, e = heicFailedPayload rid d) ∨ (∃ d, e = workerExceptionPayload d) ∨
        (∃ t, e = unknownPayload t)) :=
  ⟨fun _ => rfl, fun _ _ => rfl, rfl, rfl, fun _ => rfl, fun _ => rfl,
   handleMessage_failure_shape⟩

/-- Counterexample to C8 as stated: a process request carrying request id
"r1" sent before initialization fails with the not-initialized error, and
that failure response contains no request identifier at all. -/
theorem failure_request_id_c8_counterexample :
    (handleMessage initialState sampleEnv (.process (some "r1") (some sampleFile))).2
      = .failure notInitPayload ∧ notInitPayload.requestId = none :=
  ⟨by decide, rfl⟩

/-- Witness for C8 (amended) at the concrete not-initialized failure. -/
theorem failure_request_id_c8_witness :
    notInitPayload = notInitPayload ∨ notInitPayload = configMissingPayload ∨
      (∃ rid, notInitPayload = noFilePayload rid) ∨
      (∃ rid d, notInitPayload = heicFailedPayload rid d) ∨
      (∃ d, notInitPayload = workerExceptionPayload d) ∨
      (∃ t, notInitPayload = unknownPayload t) :=
  failure_request_id_c8_amended.2.2.2.2.2.2 initialState sampleEnv
    (.process (some "r1") (some sampleFile)) notInitPayload (by decide)

/-- C9 (amended): once initialized, process requests and unknown messages
never change the worker state — `RUNTIME` is only read — but a further
init message does reconfigure it. -/
theorem runtime_readonly_c9_amended :
    ∀ (s : WorkerState) (env : DecodeEnv) (rid : Option String) (file : Option JsFile)
      (t : String), s.rt.ready = true →
      (handleMessage s env (.process rid file)).1 = s ∧
      (handleMessage s env (.other t)).1 = s :=
  fun _ _ _ _ _ _ => ⟨rfl, rfl⟩

/-- Counterexample to C9 as stated: after initialization completes, a
second init message — a message handled after initialization — changes
`RUNTIME.maxLongSidePx`. -/
theorem runtime_readonly_c9_counterexample :
    readyState.rt.ready = true ∧
    (handleMessage readyState sampleEnv (.init initB)).1.rt.maxLongSidePx
      ≠ readyState.rt.maxLongSidePx :=
  ⟨by decide, by decide⟩

/-- Witness for C9 (amended) at the concrete ready state. -/
theorem runtime_readonly_c9_witness :
    (handleMessage readyState sampleEnv (.process (some "r1") (some sampleFile))).1 = readyState ∧
    (handleMessage readyState sampleEnv (.other "ping")).1 = readyState :=
  runtime_readonly_c9_amended readyState sampleEnv (some "r1") (some sampleFile) "ping" (by decide)

/-- C10: the encoder's over-limit flag is true exactly when the produced
byte size exceeds the byte budget, and in every successful process
response the debug trace's `bestEffortOverLimit` is true exactly when the
normalized JPEG's byte size exceeds the configured `targetMaxBytes`. -/
theorem over_limit_flag_iff_c10 (rt : Runtime) (encode : ℕ → ℕ → ℚ → ℕ)
    (maxLong target : ℚ) (srcW srcH orientation : ℕ) :
    ((renderResizedJpeg rt encode maxLong target srcW srcH orientation).bestEffortOverLimit = true ↔
      target < ((renderResizedJpeg rt encode maxLong target srcW srcH orientation).size : ℚ)) ∧
    (∀ (s : WorkerState) (env : DecodeEnv) (m : Msg) (p : ProcessOkPayload),
      (handleMessage s env m).2 = .processOk p →
      (p.debugOverLimit = true ↔
        (s.rt.targetMaxBytes.getD 0 : ℚ) < (p.normalizedBytes : ℚ))) :=
  ⟨renderResizedJpeg_overLimit rt encode maxLong target srcW srcH orientation,
   handleMessage_ok_overLimit⟩

/-- Witness for C10 at a concrete successful process run. -/
theorem over_limit_flag_iff_c10_witness :
    (samplePayload.debugOverLimit = true ↔
      (readyState.rt.targetMaxBytes.getD 0 : ℚ) < (samplePayload.normalizedBytes : ℚ)) :=
  (over_limit_flag_iff_c10 initialState.rt sampleEnc 2560 500000 100 100 1).2
    readyState sampleEnv (.process (some "r1") (some sampleFile)) samplePayload rfl
